import Mathlib

/-!
Verification of the enphase-envoy client library (`src/lib/enphase-envoy.ts`).

The TypeScript source is shallowly embedded: HTTP responses become explicit
record values, the Node.js filesystem becomes a map from paths to optional
contents, randomness becomes an explicit byte-list argument, and the
side-effecting `authenticate` orchestration becomes a pure function that
returns the trace of collaborator invocations together with the final
`Authorization` header value.  Errors thrown by the TypeScript code become
`Except` error values.
-/

namespace EnphaseEnvoy

/-! ## Bytes, 32-bit words, and big-endian serialisation -/

/-- Truncate to a 32-bit word, as JavaScript/Node crypto arithmetic does. -/
def w32 (n : Nat) : Nat := n % 4294967296

/-- Right rotation of a 32-bit word by `n` bits. -/
def rotr (n x : Nat) : Nat := w32 ((x >>> n) ||| (x <<< (32 - n)))

/-- Big-endian byte serialisation of `n` into exactly `k` bytes. -/
def beBytes : Nat → Nat → List Nat
  | 0, _ => []
  | k + 1, n => beBytes k (n >>> 8) ++ [n &&& 255]

/-! ## SHA-256 (as used by `crypto.createHash('sha256')`) -/

/-- Round constants of SHA-256 (FIPS 180-4, written in decimal). -/
def shaK : List Nat :=
  [1116352408, 1899447441, 3049323471, 3921009573, 961987163, 1508970993,
   2453635748, 2870763221, 3624381080, 310598401, 607225278, 1426881987,
   1925078388, 2162078206, 2614888103, 3248222580, 3835390401, 4022224774,
   264347078, 604807628, 770255983, 1249150122, 1555081692, 1996064986,
   2554220882, 2821834349, 2952996808, 3210313671, 3336571891, 3584528711,
   113926993, 338241895, 666307205, 773529912, 1294757372, 1396182291,
   1695183700, 1986661051, 2177026350, 2456956037, 2730485921, 2820302411,
   3259730800, 3345764771, 3516065817, 3600352804, 4094571909, 275423344,
   430227734, 506948616, 659060556, 883997877, 958139571, 1322822218,
   1537002063, 1747873779, 1955562222, 2024104815, 2227730452, 2361852424,
   2428436474, 2756734187, 3204031479, 3329325298]

/-- Initial hash state of SHA-256 (FIPS 180-4, written in decimal). -/
def shaInit : List Nat :=
  [1779033703, 3144134277, 1013904242, 2773480762,
   1359893119, 2600822924, 528734635, 1541459225]

/-- SHA-256 message padding: a `0x80` byte, zeros to 56 mod 64, then the
bit length as a 64-bit big-endian integer. -/
def shaPad (msg : List Nat) : List Nat :=
  let zeros := (119 - msg.length % 64) % 64
  msg ++ [0x80] ++ List.replicate zeros 0 ++ beBytes 8 (msg.length * 8)

/-- Group bytes into 32-bit big-endian words. -/
def toWords : List Nat → List Nat
  | a :: b :: c :: d :: rest => (a <<< 24 ||| b <<< 16 ||| c <<< 8 ||| d) :: toWords rest
  | _ => []

/-- Expand the sixteen words of one block into the 64-entry message schedule. -/
def scheduleW (block : List Nat) : Array Nat :=
  (List.range 48).foldl (fun w i =>
    let j := i + 16
    let x15 := w.getD (j - 15) 0
    let x2 := w.getD (j - 2) 0
    let s0 := rotr 7 x15 ^^^ rotr 18 x15 ^^^ (x15 >>> 3)
    let s1 := rotr 17 x2 ^^^ rotr 19 x2 ^^^ (x2 >>> 10)
    w.push (w32 (w.getD (j - 16) 0 + s0 + w.getD (j - 7) 0 + s1)))
    (toWords block).toArray

/-- SHA-256 compression of one 64-byte block into the running hash state. -/
def shaCompress (h : List Nat) (block : List Nat) : List Nat :=
  let w := scheduleW block
  let st := (List.range 64).foldl (fun st i =>
    match st with
    | (a, b, c, d, e, f, g, hh) =>
      let s1 := rotr 6 e ^^^ rotr 11 e ^^^ rotr 25 e
      let ch := (e &&& f) ^^^ ((e ^^^ 4294967295) &&& g)
      let t1 := w32 (hh + s1 + ch + shaK.getD i 0 + w.getD i 0)
      let s0 := rotr 2 a ^^^ rotr 13 a ^^^ rotr 22 a
      let maj := (a &&& b) ^^^ (a &&& c) ^^^ (b &&& c)
      let t2 := w32 (s0 + maj)
      (w32 (t1 + t2), a, b, c, w32 (d + t1), e, f, g))
    (h.getD 0 0, h.getD 1 0, h.getD 2 0, h.getD 3 0,
     h.getD 4 0, h.getD 5 0, h.getD 6 0, h.getD 7 0)
  match st with
  | (a, b, c, d, e, f, g, hh) =>
    [w32 (h.getD 0 0 + a), w32 (h.getD 1 0 + b), w32 (h.getD 2 0 + c), w32 (h.getD 3 0 + d),
     w32 (h.getD 4 0 + e), w32 (h.getD 5 0 + f), w32 (h.getD 6 0 + g), w32 (h.getD 7 0 + hh)]

/-- SHA-256 of a byte sequence, as a list of 32 digest bytes. -/
def sha256 (msg : List Nat) : List Nat :=
  let final := ((shaPad msg).toChunks 64).foldl shaCompress shaInit
  (final.map (beBytes 4)).flatten

/-- UTF-8 bytes of a string; `crypto.Hash.update` applied to a JavaScript
string hashes its UTF-8 encoding. -/
def utf8Bytes (s : String) : List Nat := s.toUTF8.toList.map (fun b => b.toNat)

/-! ## Base64 encodings (Node `Buffer.toString('base64')` / `'base64url'`) -/

/-- Standard base64 alphabet. -/
def b64Alpha : List Char :=
  "ABCDEFGHIJKLMNOPQRSTUVWXYZabcdefghijklmnopqrstuvwxyz0123456789+/".toList

/-- URL-safe base64 alphabet. -/
def b64urlAlpha : List Char :=
  "ABCDEFGHIJKLMNOPQRSTUVWXYZabcdefghijklmnopqrstuvwxyz0123456789-_".toList

/-- Standard-alphabet character of a 6-bit group. -/
def b64Char (n : Nat) : Char := b64Alpha.getD (n &&& 63) 'A'

/-- URL-safe-alphabet character of a 6-bit group. -/
def b64urlChar (n : Nat) : Char := b64urlAlpha.getD (n &&& 63) 'A'

/-- Standard base64 encoding with `=` padding, three input bytes per four
output characters. -/
def base64Core : List Nat → List Char
  | b1 :: b2 :: b3 :: rest =>
    let n := b1 <<< 16 ||| b2 <<< 8 ||| b3
    b64Char (n >>> 18) :: b64Char (n >>> 12) :: b64Char (n >>> 6) :: b64Char n ::
      base64Core rest
  | [b1, b2] =>
    let n := b1 <<< 8 ||| b2
    [b64Char (n >>> 10), b64Char (n >>> 4), b64Char (n <<< 2), '=']
  | [b1] => [b64Char (b1 >>> 2), b64Char (b1 <<< 4), '=', '=']
  | [] => []

/-- URL-safe base64 encoding without padding (Node `'base64url'`). -/
def base64urlCore : List Nat → List Char
  | b1 :: b2 :: b3 :: rest =>
    let n := b1 <<< 16 ||| b2 <<< 8 ||| b3
    b64urlChar (n >>> 18) :: b64urlChar (n >>> 12) :: b64urlChar (n >>> 6) :: b64urlChar n ::
      base64urlCore rest
  | [b1, b2] =>
    let n := b1 <<< 8 ||| b2
    [b64urlChar (n >>> 10), b64urlChar (n >>> 4), b64urlChar (n <<< 2)]
  | [b1] => [b64urlChar (b1 >>> 2), b64urlChar (b1 <<< 4)]
  | [] => []

/-- The `.replace(/\+/g, '-')` step of `generate_code_verifier`. -/
def substPlus (c : Char) : Char := if c = '+' then '-' else c

/-- The `.replace(/\//g, '_')` step of `generate_code_verifier`. -/
def substSlash (c : Char) : Char := if c = '/' then '_' else c

/-! ## PKCE generation (`Main.generate_code_verifier` / `generate_code_challenge`)

Randomness is made explicit: `crypto.randomBytes(32)` becomes the byte-list
argument `randomBytes`. -/

/-- Embedding of `Main.generate_code_verifier`: base64 of the random bytes,
with `+`→`-`, `/`→`_`, and all `=` removed. -/
def generate_code_verifier (randomBytes : List Nat) : String :=
  String.mk ((((base64Core randomBytes).map substPlus).map substSlash).filter
    (fun c => c != '='))

/-- Embedding of `Main.generate_code_challenge`: `base64url` of the SHA-256
digest of the verifier's UTF-8 bytes. -/
def generate_code_challenge (code_verifier : String) : String :=
  String.mk (base64urlCore (sha256 (utf8Bytes code_verifier)))

/-- The challenge as the specification words it: Base64url(SHA-256(verifier))
computed over the verifier's raw bytes, URL-safe base64, no padding. -/
def specChallenge (verifier : String) : String :=
  String.mk (base64urlCore (sha256 (utf8Bytes verifier)))

/-- Character predicate of the spec: no `+`, `/`, or `=` anywhere. -/
def urlOk (c : Char) : Bool := c != '+' && c != '/' && c != '='

/-- String-level form of `urlOk`. -/
def urlSafe (s : String) : Bool := s.data.all urlOk

/-! ## URL query parsing (`new URL(...).searchParams.get(...)`) -/

/-- Split a character list at the first occurrence of `sep`: the part before
it, and — when `sep` occurs — the part after it. -/
def breakAtChar (sep : Char) : List Char → List Char × Option (List Char)
  | [] => ([], none)
  | c :: cs =>
    if c = sep then ([], some cs)
    else
      let r := breakAtChar sep cs
      (c :: r.1, r.2)

/-- Split a character list at every occurrence of `sep`. -/
def splitAtChar (sep : Char) : List Char → List (List Char)
  | [] => [[]]
  | c :: cs =>
    if c = sep then [] :: splitAtChar sep cs
    else
      match splitAtChar sep cs with
      | [] => [[c]]
      | piece :: rest => (c :: piece) :: rest

/-- Query portion of a URL string: the part after the first `?`, with any
fragment (from the first `#`) removed first. -/
def urlQuery (s : String) : List Char :=
  ((breakAtChar '?' (breakAtChar '#' s.data).1).2).getD []

/-- Key-value pairs of a query string: `&`-separated pieces, each split at its
first `=`; empty pieces are skipped, a piece without `=` has value `""`. -/
def queryPairs (q : List Char) : List (String × String) :=
  (splitAtChar '&' q).filterMap fun p =>
    match breakAtChar '=' p with
    | ([], none) => none
    | (k, none) => some (String.mk k, "")
    | (k, some v) => some (String.mk k, String.mk v)

/-- Embedding of `URL.searchParams.get`: the value of the first pair with the
given key, or `none` (JavaScript `null`) when the key is absent. -/
def searchParamsGet (url : String) (key : String) : Option String :=
  ((queryPairs (urlQuery url)).find? (fun kv => kv.1 == key)).map (fun kv => kv.2)

/-! ## Error taxonomy

The TypeScript code throws generic `Error`s; the spec names them
`AuthenticationFailed` and `MetricsFetchFailed`.  The constructors carry
exactly the data interpolated into the thrown messages. -/

/-- Metrics response body shape: `{production: [...], consumption: [...]}`. -/
structure ProductionEntry where
  type : String
  wNow : Int
deriving DecidableEq, Repr

/-- One entry of the `consumption` array. -/
structure ConsumptionEntry where
  type : String
  measurementType : String
  wNow : Int
deriving DecidableEq, Repr

/-- Parsed body of the `/production.json?details=1` response. -/
structure ProductionData where
  production : List ProductionEntry
  consumption : List ConsumptionEntry
deriving DecidableEq, Repr

/-- Errors thrown by the embedded operations. -/
inductive EnvoyError where
  /-- `Unexpected HTTP status. Expected: 302, Found: <actual>` in `get_code`. -/
  | authenticationFailed (expected actual : Nat)
  /-- `Error while fetching production data (HTTP status: <status>)` followed
  by the stringified body, in `get_current_power`. -/
  | metricsFetchFailed (status : Nat) (body : ProductionData)
deriving DecidableEq, Repr

/-! ## `Main.get_code` -/

/-- Response of the remote identity service's `/login` endpoint: the HTTP
status and the `Location` response header. -/
structure LoginResponse where
  status : Nat
  location : String
deriving DecidableEq, Repr

/-- Embedding of `Main.get_code`: any status other than 302 throws; on 302 the
`code` query parameter of the `Location` URL is returned (possibly `null`). -/
def get_code (resp : LoginResponse) : Except EnvoyError (Option String) :=
  if resp.status ≠ 302 then
    .error (.authenticationFailed 302 resp.status)
  else
    .ok (searchParamsGet resp.location "code")

/-! ## `Main.get_jwt` -/

/-- Response of the device's `/auth/get_jwt` endpoint: the HTTP status and the
parsed JSON body, as string-valued fields. -/
structure JwtResponse where
  status : Nat
  data : List (String × String)
deriving DecidableEq, Repr

/-- Embedding of `Main.get_jwt`: returns `response.data.access_token` without
inspecting the status; a missing field is `none` (JavaScript `undefined`). -/
def get_jwt (resp : JwtResponse) : Option String :=
  (resp.data.find? (fun kv => kv.1 == "access_token")).map (fun kv => kv.2)

/-! ## `Main.get_current_power` -/

/-- Response of the device's `/production.json?details=1` endpoint. -/
structure MetricsResponse where
  status : Nat
  data : ProductionData
deriving DecidableEq, Repr

/-- The three aggregate values returned by `get_current_power`. -/
structure PowerReading where
  production : Int
  consumption : Int
  net : Int
deriving DecidableEq, Repr

/-- Embedding of `Main.get_current_power`: throws on non-200, otherwise the
three `reduce` folds of the source, verbatim. -/
def get_current_power (resp : MetricsResponse) : Except EnvoyError PowerReading :=
  if resp.status ≠ 200 then
    .error (.metricsFetchFailed resp.status resp.data)
  else
    let production := resp.data.production.foldl
      (fun sum item => sum + (if item.type == "eim" then item.wNow else 0)) 0
    let consumption := resp.data.consumption.foldl
      (fun sum item => sum +
        (if item.type == "eim" && item.measurementType == "total-consumption"
         then item.wNow else 0)) 0
    let net := resp.data.consumption.foldl
      (fun sum item => sum +
        (if item.type == "eim" && item.measurementType == "net-consumption"
         then item.wNow else 0)) 0
    .ok ⟨production, consumption, net⟩

/-! ## `FileTokenStorage`

The filesystem is a map from paths to optional contents; `fs.access` and
`fs.readFile` reject exactly when the path is absent, `fs.writeFile` replaces
the contents at the path. -/

/-- Filesystem state: contents by path. -/
def FS := String → Option String

/-- Embedding of `fs.access`: rejects when the path does not exist. -/
def fsAccess (fs : FS) (path : String) : Except Unit Unit :=
  match fs path with
  | some _ => .ok ()
  | none => .error ()

/-- Embedding of `fs.readFile`: rejects when the path does not exist. -/
def fsReadFile (fs : FS) (path : String) : Except Unit String :=
  match fs path with
  | some content => .ok content
  | none => .error ()

/-- Embedding of `fs.writeFile`. -/
def fsWriteFile (fs : FS) (path : String) (content : String) : FS :=
  fun p => if p = path then some content else fs p

namespace FileTokenStorage

/-- Embedding of `FileTokenStorage.load`: if `fs.access` rejects, return
`undefined` normally; otherwise read and return the file's contents. -/
def load (fs : FS) (path : String) : Except Unit (Option String) :=
  match fsAccess fs path with
  | .error _ => .ok none
  | .ok _ =>
    match fsReadFile fs path with
    | .error e => .error e
    | .ok content => .ok (some content)

/-- Embedding of `FileTokenStorage.save`: write the token to the file. -/
def save (fs : FS) (path : String) (token : String) : FS :=
  fsWriteFile fs path token

end FileTokenStorage

/-! ## `Main.authenticate`

The orchestration is embedded as a pure function of the collaborators'
results: the value produced by `token_storage.load()`, the random bytes
consumed by `generate_code_verifier`, and the two HTTP responses.  It yields
the ordered trace of collaborator invocations together with the final value
of `envoyHttp.defaults.headers.common['Authorization']`. -/

/-- One collaborator invocation made during `authenticate`. -/
inductive AuthEvent where
  /-- PKCE generation: fresh verifier and its derived challenge. -/
  | pkce (verifier challenge : String)
  /-- Network call to `get_code`, carrying the challenge sent. -/
  | codeRequest (challenge : String)
  /-- Network call to `get_jwt`, carrying verifier and code sent. -/
  | jwtRequest (verifier : String) (code : Option String)
  /-- `token_storage.save`, carrying the token argument. -/
  | save (token : Option String)
deriving DecidableEq, Repr

/-- Result of `authenticate`: the event trace and the `Authorization` header
installed on the device client. -/
structure AuthResult where
  events : List AuthEvent
  authHeader : String
deriving DecidableEq, Repr

/-- JavaScript template-literal rendering of a possibly-undefined value. -/
def jsShow : Option String → String
  | some s => s
  | none => "undefined"

/-- Embedding of `Main.authenticate`.  `loaded` is the result of
`token_storage.load()` (`none` for `undefined`/`null`, which is what the
loose `jwt == undefined` test matches). -/
def authenticate (loaded : Option String) (randomBytes : List Nat)
    (loginResp : LoginResponse) (jwtResp : JwtResponse) :
    Except EnvoyError AuthResult :=
  match loaded with
  | some jwt => .ok ⟨[], "Bearer " ++ jwt⟩
  | none =>
    let code_verifier := generate_code_verifier randomBytes
    let code_challenge := generate_code_challenge code_verifier
    match get_code loginResp with
    | .error e => .error e
    | .ok code =>
      let jwt := get_jwt jwtResp
      .ok ⟨[.pkce code_verifier code_challenge, .codeRequest code_challenge,
            .jwtRequest code_verifier code, .save jwt],
           "Bearer " ++ jsShow jwt⟩

/-- Tokens passed to `token_storage.save` during a trace. -/
def savedTokens (events : List AuthEvent) : List (Option String) :=
  events.filterMap fun e =>
    match e with
    | .save t => some t
    | _ => none

/-- Number of network calls (`get_code` or `get_jwt`) in a trace. -/
def networkCalls (events : List AuthEvent) : Nat :=
  events.countP fun e =>
    match e with
    | .codeRequest _ => true
    | .jwtRequest _ _ => true
    | _ => false

/-- Number of PKCE generations in a trace. -/
def pkceCalls (events : List AuthEvent) : Nat :=
  events.countP fun e =>
    match e with
    | .pkce _ _ => true
    | _ => false

/-! ## Claim-side reduction sums (the wording of spec §4.5) -/

/-- Production sum as both spec and code word it: `wNow` over `type == "eim"`. -/
def specProductionSum (l : List ProductionEntry) : Int :=
  ((l.filter fun i => i.type == "eim").map fun i => i.wNow).sum

/-- Consumption sum as both spec and code word it: `wNow` over
`type == "eim" && measurementType == "total-consumption"`. -/
def specConsumptionSum (l : List ConsumptionEntry) : Int :=
  ((l.filter fun i => i.type == "eim" && i.measurementType == "total-consumption").map
    fun i => i.wNow).sum

/-- Net sum as the spec words it: `wNow` over entries whose
`measurementType == "net-consumption"`, with no condition on `type`. -/
def specNetSum (l : List ConsumptionEntry) : Int :=
  ((l.filter fun i => i.measurementType == "net-consumption").map fun i => i.wNow).sum

/-- Net sum as the code computes it: `wNow` over
`type == "eim" && measurementType == "net-consumption"`. -/
def amendedNetSum (l : List ConsumptionEntry) : Int :=
  ((l.filter fun i => i.type == "eim" && i.measurementType == "net-consumption").map
    fun i => i.wNow).sum

end EnphaseEnvoy

namespace EnphaseEnvoy

/-! ## Helper lemmas -/

theorem and63_lt (n : Nat) : n &&& 63 < 64 :=
  Nat.lt_succ_of_le Nat.and_le_right

theorem urlOk_b64urlChar (n : Nat) : urlOk (b64urlChar n) = true := by
  have h : ∀ i < 64, urlOk (b64urlAlpha.getD i 'A') = true := by decide
  exact h (n &&& 63) (and63_lt n)

theorem base64urlCore_ok (bs : List Nat) : (base64urlCore bs).all urlOk = true := by
  induction bs using base64urlCore.induct with
  | case1 b1 b2 b3 rest ih => simp [base64urlCore, urlOk_b64urlChar, ih]
  | case2 b1 b2 => simp [base64urlCore, urlOk_b64urlChar]
  | case3 b1 => simp [base64urlCore, urlOk_b64urlChar]
  | case4 => simp [base64urlCore]

theorem subst_b64Char (n : Nat) : substSlash (substPlus (b64Char n)) = b64urlChar n := by
  have h : ∀ i < 64, substSlash (substPlus (b64Alpha.getD i 'A')) = b64urlAlpha.getD i 'A' := by
    decide
  exact h (n &&& 63) (and63_lt n)

theorem subst_pad : substSlash (substPlus '=') = '=' := rfl

theorem b64urlChar_ne_pad (n : Nat) : (b64urlChar n != '=') = true := by
  have h := urlOk_b64urlChar n
  unfold urlOk at h
  simp only [Bool.and_eq_true] at h
  exact h.2

theorem verifier_chars_eq (bs : List Nat) :
    (((base64Core bs).map substPlus).map substSlash).filter (fun c => c != '=') =
      base64urlCore bs := by
  induction bs using base64Core.induct with
  | case1 b1 b2 b3 rest ih =>
    simp [base64Core, base64urlCore, subst_b64Char, subst_pad, b64urlChar_ne_pad]
    simpa using ih
  | case2 b1 b2 =>
    simp [base64Core, base64urlCore, subst_b64Char, subst_pad, b64urlChar_ne_pad]
  | case3 b1 =>
    simp [base64Core, base64urlCore, subst_b64Char, subst_pad, b64urlChar_ne_pad]
  | case4 => simp [base64Core, base64urlCore]

theorem foldl_add_if {α : Type} (p : α → Bool) (f : α → Int) (l : List α) (a : Int) :
    l.foldl (fun s i => s + (if p i then f i else 0)) a = a + ((l.filter p).map f).sum := by
  induction l generalizing a with
  | nil => simp
  | cons hd tl ih =>
    cases hp : p hd <;> simp [List.foldl_cons, hp, ih, add_assoc]

theorem production_foldl (l : List ProductionEntry) (a : Int) :
    l.foldl (fun sum item => sum + (if item.type == "eim" then item.wNow else 0)) a =
      a + specProductionSum l :=
  foldl_add_if _ _ l a

theorem consumption_foldl (l : List ConsumptionEntry) (a : Int) :
    l.foldl (fun sum item => sum +
        (if item.type == "eim" && item.measurementType == "total-consumption"
         then item.wNow else 0)) a =
      a + specConsumptionSum l :=
  foldl_add_if _ _ l a

theorem net_foldl (l : List ConsumptionEntry) (a : Int) :
    l.foldl (fun sum item => sum +
        (if item.type == "eim" && item.measurementType == "net-consumption"
         then item.wNow else 0)) a =
      a + amendedNetSum l :=
  foldl_add_if _ _ l a

end EnphaseEnvoy

namespace EnphaseEnvoy

/-! ## Claim theorems -/

/-- C1: for every TokenStore whose load() returns a non-empty token string,
authenticate() completes successfully without invoking the PKCE generator,
get_code, or get_jwt — no network calls occur — and the returned token is
attached as the bearer credential. -/
theorem C1_cache_hit_fast_path (token : String) (_hne : token ≠ "")
    (randomBytes : List Nat) (loginResp : LoginResponse) (jwtResp : JwtResponse) :
    authenticate (some token) randomBytes loginResp jwtResp =
      .ok ⟨[], "Bearer " ++ token⟩ ∧
    ∀ res, authenticate (some token) randomBytes loginResp jwtResp = .ok res →
      pkceCalls res.events = 0 ∧ networkCalls res.events = 0 ∧
      savedTokens res.events = [] ∧ res.authHeader = "Bearer " ++ token := by
  refine ⟨rfl, ?_⟩
  intro res h
  have hres : res = ⟨[], "Bearer " ++ token⟩ := by
    have : Except.ok (ε := EnvoyError) (⟨[], "Bearer " ++ token⟩ : AuthResult) = .ok res := h
    exact (Except.ok.inj this).symm
  subst hres
  exact ⟨rfl, rfl, rfl, rfl⟩

/-- C1 witness: a concrete cached token takes the fast path. -/
theorem C1_cache_hit_fast_path_witness :
    "cached-token" ≠ "" ∧
    authenticate (some "cached-token") [] ⟨200, ""⟩ ⟨500, []⟩ =
      .ok ⟨[], "Bearer " ++ "cached-token"⟩ :=
  ⟨by decide,
   (C1_cache_hit_fast_path "cached-token" (by decide) [] ⟨200, ""⟩ ⟨500, []⟩).1⟩

/-- C2: for every TokenStore whose load() returns absent, authenticate()
generates a fresh PKCE verifier and challenge, calls get_code, then get_jwt,
in that order, then calls save() exactly once with exactly the token returned
by the exchange, and attaches that token as the bearer credential. -/
theorem C2_cache_miss_handshake (randomBytes : List Nat) (loginResp : LoginResponse)
    (jwtResp : JwtResponse) (code : Option String) (token : String)
    (hcode : get_code loginResp = .ok code)
    (htok : get_jwt jwtResp = some token) :
    authenticate none randomBytes loginResp jwtResp =
      .ok ⟨[.pkce (generate_code_verifier randomBytes)
              (generate_code_challenge (generate_code_verifier randomBytes)),
            .codeRequest (generate_code_challenge (generate_code_verifier randomBytes)),
            .jwtRequest (generate_code_verifier randomBytes) code,
            .save (some token)],
           "Bearer " ++ token⟩ ∧
    ∀ res, authenticate none randomBytes loginResp jwtResp = .ok res →
      savedTokens res.events = [some token] ∧ pkceCalls res.events = 1 ∧
      networkCalls res.events = 2 ∧ res.authHeader = "Bearer " ++ token := by
  have hmain : authenticate none randomBytes loginResp jwtResp =
      .ok ⟨[.pkce (generate_code_verifier randomBytes)
              (generate_code_challenge (generate_code_verifier randomBytes)),
            .codeRequest (generate_code_challenge (generate_code_verifier randomBytes)),
            .jwtRequest (generate_code_verifier randomBytes) code,
            .save (some token)],
           "Bearer " ++ token⟩ := by
    simp [authenticate, hcode, htok, jsShow]
  refine ⟨hmain, ?_⟩
  intro res h
  rw [hmain] at h
  have hres := (Except.ok.inj h).symm
  subst hres
  exact ⟨rfl, rfl, rfl, rfl⟩

/-- C2 witness: the end-to-end scenario of spec §8 — absent store, redirect
carrying code ABC123, exchange returning tok-1. -/
theorem C2_cache_miss_handshake_witness :
    get_code ⟨302, "https://envoy.local/auth/callback?code=ABC123"⟩ = .ok (some "ABC123") ∧
    get_jwt ⟨200, [("access_token", "tok-1")]⟩ = some "tok-1" ∧
    authenticate none (List.replicate 32 0)
        ⟨302, "https://envoy.local/auth/callback?code=ABC123"⟩
        ⟨200, [("access_token", "tok-1")]⟩ =
      .ok ⟨[.pkce (generate_code_verifier (List.replicate 32 0))
              (generate_code_challenge (generate_code_verifier (List.replicate 32 0))),
            .codeRequest (generate_code_challenge (generate_code_verifier (List.replicate 32 0))),
            .jwtRequest (generate_code_verifier (List.replicate 32 0)) (some "ABC123"),
            .save (some "tok-1")],
           "Bearer " ++ "tok-1"⟩ :=
  ⟨rfl, rfl,
   (C2_cache_miss_handshake (List.replicate 32 0)
      ⟨302, "https://envoy.local/auth/callback?code=ABC123"⟩
      ⟨200, [("access_token", "tok-1")]⟩ (some "ABC123") "tok-1" rfl rfl).1⟩

/-- C3: generate_code_challenge is deterministic (it is a function and equals
the specified Base64url(SHA-256(verifier)) over the verifier's raw bytes),
and neither a generated verifier nor a derived challenge contains any `+`,
`/`, or `=` character; moreover the verifier is exactly the URL-safe
unpadded base64 encoding of the random bytes. -/
theorem C3_pkce_derivation (v : String) (bytes : List Nat) :
    generate_code_challenge v = specChallenge v ∧
    urlSafe (generate_code_challenge v) = true ∧
    urlSafe (generate_code_verifier bytes) = true ∧
    generate_code_verifier bytes = String.mk (base64urlCore bytes) := by
  refine ⟨rfl, ?_, ?_, ?_⟩
  · show (base64urlCore (sha256 (utf8Bytes v))).all urlOk = true
    exact base64urlCore_ok _
  · show ((((base64Core bytes).map substPlus).map substSlash).filter
      (fun c => c != '=')).all urlOk = true
    rw [verifier_chars_eq]
    exact base64urlCore_ok _
  · unfold generate_code_verifier
    rw [verifier_chars_eq]

/-- C4 counterexample: a 302 response whose Location URL has no `code` query
parameter does not raise — get_code returns a null code. -/
theorem C4_missing_code_counterexample :
    get_code ⟨302, "https://envoy.local/auth/callback?state=xyz"⟩ = .ok none ∧
    searchParamsGet "https://envoy.local/auth/callback?state=xyz" "code" = none :=
  ⟨rfl, rfl⟩

/-- C4 amended: get_code raises AuthenticationFailed, reporting expected
status 302 and the actual status, exactly when the status is not 302; a 302
response is never an error — its Location's `code` parameter (null when
absent) is returned. -/
theorem C4_get_code_error_conditions (resp : LoginResponse) :
    ((∃ e, get_code resp = .error e) ↔ resp.status ≠ 302) ∧
    (resp.status ≠ 302 → get_code resp = .error (.authenticationFailed 302 resp.status)) ∧
    (resp.status = 302 → get_code resp = .ok (searchParamsGet resp.location "code")) := by
  by_cases h : resp.status = 302 <;> simp [get_code, h]

/-- C4 witness: a 200 response raises with expected 302 and actual 200, and a
302 response with a `code` parameter yields it without error. -/
theorem C4_get_code_error_conditions_witness :
    get_code ⟨200, "https://envoy.local/login"⟩ =
      .error (.authenticationFailed 302 200) ∧
    get_code ⟨302, "https://envoy.local/auth/callback?code=XYZ9"⟩ = .ok (some "XYZ9") := by
  constructor
  · exact (C4_get_code_error_conditions ⟨200, "https://envoy.local/login"⟩).2.1 (by decide)
  · rw [(C4_get_code_error_conditions
      ⟨302, "https://envoy.local/auth/callback?code=XYZ9"⟩).2.2 rfl]
    rfl

/-- C5: for every 302 response whose Location URL contains a `code` query
parameter, get_code returns that parameter's value. -/
theorem C5_get_code_success (resp : LoginResponse) (v : String)
    (h302 : resp.status = 302)
    (hcode : searchParamsGet resp.location "code" = some v) :
    get_code resp = .ok (some v) := by
  simp [get_code, h302, hcode]

/-- C5 witness: the spec §8 example — Location
https://envoy.local/auth/callback?code=ABC123 yields ABC123. -/
theorem C5_get_code_success_witness :
    get_code ⟨302, "https://envoy.local/auth/callback?code=ABC123"⟩ = .ok (some "ABC123") :=
  C5_get_code_success ⟨302, "https://envoy.local/auth/callback?code=ABC123"⟩ "ABC123" rfl rfl

/-- C6 counterexample: a consumption entry with `measurementType ==
"net-consumption"` but `type ≠ "eim"` contributes 0 in the code, while the
claim's net sum counts it. -/
theorem C6_net_filter_counterexample :
    get_current_power ⟨200, ⟨[], [⟨"other", "net-consumption", 100⟩]⟩⟩ =
      .ok ⟨0, 0, 0⟩ ∧
    specNetSum [⟨"other", "net-consumption", 100⟩] = 100 :=
  ⟨rfl, rfl⟩

/-- C6 amended: on a 200 response, production sums `wNow` over `type ==
"eim"` production entries, consumption over `type == "eim" &&
measurementType == "total-consumption"`, and net over `type == "eim" &&
measurementType == "net-consumption"` (the code also requires `type ==
"eim"` for net); unmatched entries contribute zero and empty arrays yield
all-zero readings. -/
theorem C6_metrics_reduction (resp : MetricsResponse) (h200 : resp.status = 200) :
    get_current_power resp =
      .ok ⟨specProductionSum resp.data.production,
           specConsumptionSum resp.data.consumption,
           amendedNetSum resp.data.consumption⟩ := by
  simp only [get_current_power]
  rw [if_neg (fun hc => hc h200), production_foldl, consumption_foldl, net_foldl]
  simp only [zero_add]

/-- C6 witness: the worked example of spec §8 and the empty-array edge case. -/
theorem C6_metrics_reduction_witness :
    get_current_power ⟨200,
      ⟨[⟨"eim", 500⟩, ⟨"other", 999⟩],
       [⟨"eim", "total-consumption", 200⟩, ⟨"eim", "net-consumption", -50⟩]⟩⟩ =
      .ok ⟨specProductionSum [⟨"eim", 500⟩, ⟨"other", 999⟩],
           specConsumptionSum [⟨"eim", "total-consumption", 200⟩, ⟨"eim", "net-consumption", -50⟩],
           amendedNetSum [⟨"eim", "total-consumption", 200⟩, ⟨"eim", "net-consumption", -50⟩]⟩ ∧
    get_current_power ⟨200, ⟨[], []⟩⟩ = .ok ⟨0, 0, 0⟩ ∧
    specProductionSum [⟨"eim", 500⟩, ⟨"other", 999⟩] = 500 ∧
    specConsumptionSum [⟨"eim", "total-consumption", 200⟩, ⟨"eim", "net-consumption", -50⟩] = 200 ∧
    amendedNetSum [⟨"eim", "total-consumption", 200⟩, ⟨"eim", "net-consumption", -50⟩] = -50 := by
  refine ⟨C6_metrics_reduction _ rfl, ?_, rfl, rfl, rfl⟩
  have h := C6_metrics_reduction ⟨200, ⟨[], []⟩⟩ rfl
  rw [h]
  rfl

/-- C7: for every response with status other than 200, get_current_power
raises MetricsFetchFailed carrying the offending status and the response
body, and produces no PowerReading. -/
theorem C7_metrics_error (resp : MetricsResponse) (h : resp.status ≠ 200) :
    get_current_power resp = .error (.metricsFetchFailed resp.status resp.data) ∧
    ∀ r : PowerReading, get_current_power resp ≠ .ok r := by
  have hmain : get_current_power resp =
      .error (.metricsFetchFailed resp.status resp.data) := by
    simp [get_current_power, h]
  refine ⟨hmain, ?_⟩
  intro r hr
  rw [hmain] at hr
  exact Except.noConfusion hr

/-- C7 witness: a 500 response fails with its status and body. -/
theorem C7_metrics_error_witness :
    get_current_power ⟨500, ⟨[⟨"eim", 1⟩], []⟩⟩ =
      .error (.metricsFetchFailed 500 ⟨[⟨"eim", 1⟩], []⟩) :=
  (C7_metrics_error ⟨500, ⟨[⟨"eim", 1⟩], []⟩⟩ (by decide)).1

/-- C8: get_jwt ignores the HTTP status entirely — for every status the
result is the `access_token` field looked up in the parsed body, so a body
lacking the field yields an undefined token rather than an error. -/
theorem C8_get_jwt_pass_through (status status2 : Nat) (data : List (String × String)) :
    get_jwt ⟨status, data⟩ = get_jwt ⟨status2, data⟩ ∧
    get_jwt ⟨status, data⟩ = data.lookup "access_token" := by
  refine ⟨rfl, ?_⟩
  induction data with
  | nil => rfl
  | cons hd tl ih =>
    obtain ⟨k, v⟩ := hd
    by_cases hk : k = "access_token"
    · subst hk
      simp [get_jwt, List.lookup]
    · have hbeq : (k == "access_token") = false := by
        simpa using hk
      have hbeq2 : ("access_token" == k) = false := by
        simpa using (Ne.symm hk)
      simp [get_jwt, List.lookup, hbeq, hbeq2] at ih ⊢
      exact ih

/-- C9: FileTokenStorage.load maps a missing file to a normal absent result
rather than an exception, and a saved token is returned by a subsequent
load. -/
theorem C9_token_storage_roundtrip (fs : FS) (path token : String) :
    (fs path = none → FileTokenStorage.load fs path = .ok none) ∧
    FileTokenStorage.load (FileTokenStorage.save fs path token) path = .ok (some token) := by
  constructor
  · intro h
    simp [FileTokenStorage.load, fsAccess, fsReadFile, h]
  · simp [FileTokenStorage.load, FileTokenStorage.save, fsAccess, fsReadFile, fsWriteFile]

/-- C9 witness: an empty filesystem loads absent; a saved token loads back. -/
theorem C9_token_storage_roundtrip_witness :
    FileTokenStorage.load (fun _ => none) "./token.dat" = .ok none ∧
    FileTokenStorage.load
      (FileTokenStorage.save (fun _ => none) "./token.dat" "tok-1") "./token.dat" =
      .ok (some "tok-1") :=
  ⟨(C9_token_storage_roundtrip (fun _ => none) "./token.dat" "tok-1").1 rfl,
   (C9_token_storage_roundtrip (fun _ => none) "./token.dat" "tok-1").2⟩

/-- C10: the handshake runs exactly when load() yields undefined or null
(`none`); any other value, the empty string included, is a cache hit with no
collaborator calls and the Authorization header set to `Bearer ` followed by
that value. -/
theorem C10_empty_string_cache_hit (loaded : Option String) (randomBytes : List Nat)
    (loginResp : LoginResponse) (jwtResp : JwtResponse) :
    (∀ s, loaded = some s →
      authenticate loaded randomBytes loginResp jwtResp = .ok ⟨[], "Bearer " ++ s⟩) ∧
    (loaded = none → ∀ res,
      authenticate loaded randomBytes loginResp jwtResp = .ok res →
      pkceCalls res.events = 1 ∧ networkCalls res.events = 2) := by
  constructor
  · intro s hs
    subst hs
    rfl
  · intro hn res h
    subst hn
    cases hg : get_code loginResp with
    | error e =>
      rw [show authenticate none randomBytes loginResp jwtResp = .error e by
        simp [authenticate, hg]] at h
      exact Except.noConfusion h
    | ok c =>
      have hmain : authenticate none randomBytes loginResp jwtResp =
          .ok ⟨[.pkce (generate_code_verifier randomBytes)
                  (generate_code_challenge (generate_code_verifier randomBytes)),
                .codeRequest (generate_code_challenge (generate_code_verifier randomBytes)),
                .jwtRequest (generate_code_verifier randomBytes) c,
                .save (get_jwt jwtResp)],
               "Bearer " ++ jsShow (get_jwt jwtResp)⟩ := by
        simp [authenticate, hg]
      rw [hmain] at h
      have hres := (Except.ok.inj h).symm
      subst hres
      exact ⟨rfl, rfl⟩

/-- C10 witness: an empty-string cached token is a cache hit and the header
becomes `Bearer ` followed by the empty string. -/
theorem C10_empty_string_cache_hit_witness :
    authenticate (some "") [] ⟨200, ""⟩ ⟨200, []⟩ = .ok ⟨[], "Bearer " ++ ""⟩ :=
  (C10_empty_string_cache_hit (some "") [] ⟨200, ""⟩ ⟨200, []⟩).1 "" rfl

end EnphaseEnvoy
